import Mathlib

/-
Verification of the fmodel-rs Decider core against its specification.

The repository consists of a single source file, src/decider.rs, declaring
the Command / Event / State marker traits, the IDecider and Decider
contracts, and a worked accumulator example (the test fixture): the
NumberState / NumberCmd / NumberEvt types, the free functions decide and
evolve, and the Number struct implementing the Decider contract.

Embedding notes: the Rust u32 is embedded as Nat with the arithmetic of
evolve taken modulo 2 ^ 32, matching Rust release-profile wrapping
semantics for unsigned overflow; Vec becomes List; the by-reference
return of initial_state becomes a plain value (the observation is
read-only in both settings). Methods taking &self are pure functions of
the receiver; the *Call variants below make the receiver after the call
explicit, so that frame properties can be stated.
-/

namespace FmodelRs

/-- Modulus of Rust u32 arithmetic: overflowing operations wrap modulo
this value. -/
def u32Mod : Nat := 2 ^ 32

/-- NumberState from src/decider.rs: a record holding one u32 value,
embedded as a natural number (kept below u32Mod by the wrapped
arithmetic of evolve). -/
structure NumberState where
  value : Nat
deriving DecidableEq

/-- NumberState::new from src/decider.rs: wraps a number into a state. -/
def NumberState.new (num : Nat) : NumberState :=
  { value := num }

/-- NumberCmd from src/decider.rs: the four command variants of the
accumulator domain, each carrying a u32 payload. -/
inductive NumberCmd where
  | AddOddNumber (num : Nat)
  | MultiplyOddNumber (num : Nat)
  | AddEvenNumber (num : Nat)
  | MultiplyEvenNumber (num : Nat)
deriving DecidableEq

/-- NumberEvt from src/decider.rs: the four event variants of the
accumulator domain, each carrying a u32 payload. -/
inductive NumberEvt where
  | OddNumberAdded (num : Nat)
  | OddNumberMultiplied (num : Nat)
  | EvenNumberAdded (num : Nat)
  | EvenNumberMultiplied (num : Nat)
deriving DecidableEq

/-- Free function decide from src/decider.rs (the test fixture's decision
function): matches on the command only — the state parameter is unused in
the source (`_state`) — and returns a one-element vector per variant. -/
def decide (command : NumberCmd) (_state : NumberState) : List NumberEvt :=
  match command with
  | NumberCmd.AddEvenNumber num => [NumberEvt.EvenNumberAdded num]
  | NumberCmd.AddOddNumber num => [NumberEvt.OddNumberAdded num]
  | NumberCmd.MultiplyEvenNumber num => [NumberEvt.EvenNumberMultiplied num]
  | NumberCmd.MultiplyOddNumber num => [NumberEvt.OddNumberMultiplied num]

/-- Free function evolve from src/decider.rs (the test fixture's evolution
function): Added variants add the payload to the state value, Multiplied
variants multiply by it; u32 arithmetic is taken modulo u32Mod. -/
def evolve (state : NumberState) (event : NumberEvt) : NumberState :=
  match event with
  | NumberEvt.OddNumberAdded num => NumberState.new ((state.value + num) % u32Mod)
  | NumberEvt.OddNumberMultiplied num => NumberState.new ((state.value * num) % u32Mod)
  | NumberEvt.EvenNumberAdded num => NumberState.new ((state.value + num) % u32Mod)
  | NumberEvt.EvenNumberMultiplied num => NumberState.new ((state.value * num) % u32Mod)

/-- Number struct from src/decider.rs: a Decider instance holding the
decision function, the evolution function and the initial state. -/
structure Number where
  decide_fn : NumberCmd → NumberState → List NumberEvt
  evolve_fn : NumberState → NumberEvt → NumberState
  initial_state : NumberState

/-- Decider::new implemented for Number in src/decider.rs: stores the
three supplied components in the struct fields. -/
def Number.new (d : NumberCmd → NumberState → List NumberEvt)
    (e : NumberState → NumberEvt → NumberState)
    (s : NumberState) : Number :=
  { decide_fn := d, evolve_fn := e, initial_state := s }

/-- IDecider::decide implemented for Number: applies the stored
decide_fn to the arguments. -/
def Number.decide (n : Number) (command : NumberCmd) (state : NumberState) :
    List NumberEvt :=
  n.decide_fn command state

/-- IDecider::evolve implemented for Number: applies the stored
evolve_fn to the arguments. -/
def Number.evolve (n : Number) (state : NumberState) (event : NumberEvt) :
    NumberState :=
  n.evolve_fn state event

/-- Call of the &self method decide, with the receiver after the call made
explicit: the method takes the receiver by shared reference (no interior
mutability in Number), so the call yields the result alongside the
untouched receiver. -/
def Number.decideCall (n : Number) (command : NumberCmd) (state : NumberState) :
    List NumberEvt × Number :=
  (n.decide_fn command state, n)

/-- Call of the &self method evolve, with the receiver after the call made
explicit. -/
def Number.evolveCall (n : Number) (state : NumberState) (event : NumberEvt) :
    NumberState × Number :=
  (n.evolve_fn state event, n)

/-- Call of the &self method initial_state, with the receiver after the
call made explicit. -/
def Number.initialStateCall (n : Number) : NumberState × Number :=
  (n.initial_state, n)

/-- Modelled from the spec: the set of (command, state) pairs the
accumulator domain defines as business-rule violations. The domain's
decide in src/decider.rs handles every command variant unconditionally
and declares no command invalid for any state, so this set is empty. -/
def numberInvalid (_command : NumberCmd) (_state : NumberState) : Prop :=
  False

/-- Characterization of decide's output, read off the match arms of the
source: the single event each command variant produces. -/
def eventFor (command : NumberCmd) : NumberEvt :=
  match command with
  | NumberCmd.AddEvenNumber num => NumberEvt.EvenNumberAdded num
  | NumberCmd.AddOddNumber num => NumberEvt.OddNumberAdded num
  | NumberCmd.MultiplyEvenNumber num => NumberEvt.EvenNumberMultiplied num
  | NumberCmd.MultiplyOddNumber num => NumberEvt.OddNumberMultiplied num

/-- Fold of an ordered event sequence through evolve, as performed by the
external runtime described in the spec's state-machine view. -/
def foldEvents (s0 : NumberState) (events : List NumberEvt) : NumberState :=
  events.foldl evolve s0

/-- C1: evolve is total over its declared input types — every (state,
event) pair has a defined NumberState result, whose value moreover lies
in u32 range thanks to the wrapped arithmetic — and decide likewise has a
defined event-list result on every (command, state) pair; neither has a
failure path. -/
theorem c1_evolve_decide_total :
    (∀ (s : NumberState) (e : NumberEvt),
      ∃ s2 : NumberState, evolve s e = s2 ∧ s2.value < u32Mod) ∧
    (∀ (c : NumberCmd) (s : NumberState),
      ∃ es : List NumberEvt, decide c s = es) := by
  constructor
  · intro s e
    refine ⟨evolve s e, rfl, ?_⟩
    cases e <;> exact Nat.mod_lt _ (by norm_num [u32Mod])
  · intro c s
    exact ⟨decide c s, rfl⟩

/-- C2: a (command, state) pair is a business-rule violation of the
accumulator domain exactly when decide returns the empty event sequence;
the domain declares no command invalid, and correspondingly decide
never returns an empty sequence, so both sides of the equivalence are
empty and the rejection contract holds (vacuously). -/
theorem c2_invalid_iff_empty_events :
    ∀ (c : NumberCmd) (s : NumberState),
      (numberInvalid c s ↔ decide c s = []) := by
  intro c s
  constructor
  · intro h
    exact h.elim
  · intro h
    cases c <;> simp [decide] at h

/-- C3: decide and evolve on any Number instance are deterministic, pure
functions of their arguments only: two invocations on equal inputs return
equal event sequences, respectively equal states. -/
theorem c3_decide_evolve_deterministic :
    ∀ (n : Number) (c c2 : NumberCmd) (s s2 t t2 : NumberState)
      (e e2 : NumberEvt),
      c = c2 → s = s2 → t = t2 → e = e2 →
      n.decide c s = n.decide c2 s2 ∧ n.evolve t e = n.evolve t2 e2 := by
  intro n c c2 s s2 t t2 e e2 hc hs ht he
  subst hc
  subst hs
  subst ht
  subst he
  exact ⟨rfl, rfl⟩

/-- C3 witness: the determinism theorem instantiated on the concrete
Number instance of the tests at concrete inputs. -/
theorem c3_decide_evolve_deterministic_witness :
    (Number.new decide evolve (NumberState.new 0)).decide
        (NumberCmd.AddEvenNumber 2) (NumberState.new 2)
      = (Number.new decide evolve (NumberState.new 0)).decide
        (NumberCmd.AddEvenNumber 2) (NumberState.new 2) ∧
    (Number.new decide evolve (NumberState.new 0)).evolve
        (NumberState.new 2) (NumberEvt.EvenNumberAdded 2)
      = (Number.new decide evolve (NumberState.new 0)).evolve
        (NumberState.new 2) (NumberEvt.EvenNumberAdded 2) :=
  c3_decide_evolve_deterministic (Number.new decide evolve (NumberState.new 0))
    (NumberCmd.AddEvenNumber 2) (NumberCmd.AddEvenNumber 2)
    (NumberState.new 2) (NumberState.new 2)
    (NumberState.new 2) (NumberState.new 2)
    (NumberEvt.EvenNumberAdded 2) (NumberEvt.EvenNumberAdded 2)
    rfl rfl rfl rfl

/-- C4: for every trio of components, the instance built by Number.new
answers initial_state with exactly the initial-state value supplied at
construction; the stored value is a constant of the instance, so every
later observation returns it as well. -/
theorem c4_initial_state_from_new :
    ∀ (d : NumberCmd → NumberState → List NumberEvt)
      (e : NumberState → NumberEvt → NumberState) (s0 : NumberState),
      (Number.new d e s0).initial_state = s0 := by
  intro d e s0
  rfl

/-- C5: a call to decide, evolve or initial_state hands back the receiver
with its three stored components unchanged: the instance retains no state
across calls. -/
theorem c5_calls_preserve_components :
    ∀ (n : Number) (c : NumberCmd) (s t : NumberState) (e : NumberEvt),
      (n.decideCall c s).2 = n ∧
      (n.evolveCall t e).2 = n ∧
      n.initialStateCall.2 = n ∧
      (n.decideCall c s).2.decide_fn = n.decide_fn ∧
      (n.evolveCall t e).2.evolve_fn = n.evolve_fn ∧
      n.initialStateCall.2.initial_state = n.initial_state := by
  intro n c s t e
  exact ⟨rfl, rfl, rfl, rfl, rfl, rfl⟩

/-- C6: folding an ordered event sequence through evolve from an initial
state is a single deterministic function of the pair (initial state,
event list): re-running the fold on equal inputs yields equal final
states. -/
theorem c6_fold_deterministic :
    ∀ (s0 s0' : NumberState) (es es' : List NumberEvt),
      s0 = s0' → es = es' → foldEvents s0 es = foldEvents s0' es' := by
  intro s0 s0' es es' hs he
  subst hs
  subst he
  rfl

/-- C6 witness: the fold-determinism theorem instantiated at a concrete
initial state and a concrete two-event sequence. -/
theorem c6_fold_deterministic_witness :
    foldEvents (NumberState.new 0)
        [NumberEvt.EvenNumberAdded 2, NumberEvt.EvenNumberMultiplied 3]
      = foldEvents (NumberState.new 0)
        [NumberEvt.EvenNumberAdded 2, NumberEvt.EvenNumberMultiplied 3] :=
  c6_fold_deterministic (NumberState.new 0) (NumberState.new 0)
    [NumberEvt.EvenNumberAdded 2, NumberEvt.EvenNumberMultiplied 3]
    [NumberEvt.EvenNumberAdded 2, NumberEvt.EvenNumberMultiplied 3]
    rfl rfl

/-- C7: concrete accumulator scenario — the instance built with initial
state 0 reports it; decide(AddEvenNumber(2), state 2) is exactly
[EvenNumberAdded(2)]; evolve(state 2, EvenNumberAdded(2)) is state 4;
decide(MultiplyEvenNumber(2), state 2) is exactly
[EvenNumberMultiplied(2)] and not [EvenNumberAdded(2)]. -/
theorem c7_concrete_scenario :
    (Number.new decide evolve (NumberState.new 0)).initial_state
      = NumberState.new 0 ∧
    decide (NumberCmd.AddEvenNumber 2) (NumberState.new 2)
      = [NumberEvt.EvenNumberAdded 2] ∧
    evolve (NumberState.new 2) (NumberEvt.EvenNumberAdded 2)
      = NumberState.new 4 ∧
    decide (NumberCmd.MultiplyEvenNumber 2) (NumberState.new 2)
      = [NumberEvt.EvenNumberMultiplied 2] ∧
    decide (NumberCmd.MultiplyEvenNumber 2) (NumberState.new 2)
      ≠ [NumberEvt.EvenNumberAdded 2] := by
  refine ⟨rfl, rfl, by decide, rfl, by decide⟩

/-- C8: on every (command, state) pair the accumulator decide returns the
one-element sequence holding the event that the command's variant and
payload determine; in particular the result has length exactly 1. -/
theorem c8_single_event :
    ∀ (c : NumberCmd) (s : NumberState),
      decide c s = [eventFor c] ∧ (decide c s).length = 1 := by
  intro c s
  cases c <;> exact ⟨rfl, rfl⟩

/-- C9: the accumulator decide ignores its state argument — for every
command, any two states produce the same event sequence. -/
theorem c9_decide_state_independent :
    ∀ (c : NumberCmd) (s1 s2 : NumberState), decide c s1 = decide c s2 := by
  intro c s1 s2
  cases c <;> rfl

/-- C10: the accumulator evolve does not distinguish the parity tags of
events — for every state and number, OddNumberAdded and EvenNumberAdded
evolve to the same state (both add), and OddNumberMultiplied and
EvenNumberMultiplied evolve to the same state (both multiply). -/
theorem c10_evolve_parity_blind :
    ∀ (s : NumberState) (n : Nat),
      evolve s (NumberEvt.OddNumberAdded n)
        = evolve s (NumberEvt.EvenNumberAdded n) ∧
      evolve s (NumberEvt.OddNumberMultiplied n)
        = evolve s (NumberEvt.EvenNumberMultiplied n) := by
  intro s n
  exact ⟨rfl, rfl⟩

end FmodelRs
